import Mathlib

/-!
Shallow embedding of the Shopify product-customizer canvas widget
(the script binding a text input to a canvas that composites a product
image with user text), together with theorems about its behaviour.

Numbers that the script manipulates (canvas dimensions, percentages,
font sizes) are modelled as exact rationals.  Settings fields that the
script reads with a JavaScript falsy-default (the pattern v or-else d)
are modelled as `Option ℚ` for numbers (absent or present) and as plain
`String` for strings (the empty string behaves exactly like an absent
value under the falsy-default, so one representative suffices).

The canvas is modelled by its dimensions, the mutable 2D-context state
(fillStyle, font, textAlign, textBaseline) and the list of paint
operations performed since the surface was last reset.  Clearing the
full surface, or assigning the width/height properties, erases all
pixels, so those actions reset the operation list.
-/

/-- JavaScript falsy-default on a string: the empty string (or an absent
value, represented the same way) is replaced by the default. -/
def jsOrStr (v d : String) : String :=
  if v = "" then d else v

/-- JavaScript falsy-default on a number that may be absent: both
`undefined` and `0` are falsy, so either is replaced by the default. -/
def jsOrNum (v : Option ℚ) (d : ℚ) : ℚ :=
  match v with
  | none => d
  | some x => if x = 0 then d else x

/-- The settings object supplied from the Liquid schema
(CustomizerSettings in the source's JSDoc). -/
structure CustomizerSettings where
  default_text : String
  text_color : String
  font_size : Option ℚ
  font_family : String
  text_pos_x_percent : Option ℚ
  text_pos_y_percent : Option ℚ
  image_max_width : Option ℚ
  deriving DecidableEq, Repr

/-- Per-instance configuration (CustomizerInstanceConfig in the JSDoc). -/
structure CustomizerInstanceConfig where
  settings : CustomizerSettings
  imageUrl : String
  productId : String
  deriving DecidableEq, Repr

/-- Observable state of an HTMLImageElement: whether loading has
finished (complete) and the intrinsic dimensions. -/
structure ImageData where
  complete : Bool
  naturalWidth : Nat
  naturalHeight : Nat
  deriving DecidableEq, Repr

/-- A new Image() that was never given a src: complete, with natural
dimensions zero. -/
def freshImage : ImageData :=
  { complete := true, naturalWidth := 0, naturalHeight := 0 }

/-- One paint operation on the canvas, recorded with the context state
that was in force when it ran. -/
inductive CanvasOp where
  | clearRect (x y w h : ℚ)
  | drawImage (img : ImageData) (x y w h : ℚ)
  | fillRect (x y w h : ℚ) (fillStyle : String)
  | fillText (text : String) (x y : ℚ)
      (fillStyle font textAlign textBaseline : String)
  deriving DecidableEq, Repr

/-- True exactly for drawImage operations. -/
def CanvasOp.isDrawImage : CanvasOp → Bool
  | .drawImage _ _ _ _ _ => true
  | _ => false

/-- The canvas element together with its 2D context.  `width` and
`height` are the IDL properties; `widthAttr` is the value parsed from
the reflected width content attribute (what parseFloat of
getAttribute of width returns).  `contents` lists the paint operations
since the surface was last reset. -/
structure Canvas where
  width : ℚ
  height : ℚ
  widthAttr : ℚ
  fillStyle : String
  font : String
  textAlign : String
  textBaseline : String
  contents : List CanvasOp
  deriving DecidableEq, Repr

/-- ctx.fillStyle assignment. -/
def Canvas.setFillStyle (c : Canvas) (v : String) : Canvas :=
  { c with fillStyle := v }

/-- ctx.font assignment. -/
def Canvas.setFont (c : Canvas) (v : String) : Canvas :=
  { c with font := v }

/-- ctx.textAlign assignment. -/
def Canvas.setTextAlign (c : Canvas) (v : String) : Canvas :=
  { c with textAlign := v }

/-- ctx.textBaseline assignment. -/
def Canvas.setTextBaseline (c : Canvas) (v : String) : Canvas :=
  { c with textBaseline := v }

/-- ctx.clearRect.  A clear covering the whole surface erases every
pixel, so it resets the recorded operations; a partial clear is
recorded as an operation. -/
def Canvas.clearRect (c : Canvas) (x y w h : ℚ) : Canvas :=
  { c with contents :=
      if x = 0 ∧ y = 0 ∧ w = c.width ∧ h = c.height then []
      else c.contents ++ [CanvasOp.clearRect x y w h] }

/-- ctx.drawImage. -/
def Canvas.drawImage (c : Canvas) (img : ImageData) (x y w h : ℚ) : Canvas :=
  { c with contents := c.contents ++ [CanvasOp.drawImage img x y w h] }

/-- ctx.fillRect, painted with the current fillStyle. -/
def Canvas.fillRect (c : Canvas) (x y w h : ℚ) : Canvas :=
  { c with contents := c.contents ++ [CanvasOp.fillRect x y w h c.fillStyle] }

/-- ctx.fillText, painted with the current fillStyle, font, textAlign
and textBaseline. -/
def Canvas.fillText (c : Canvas) (t : String) (x y : ℚ) : Canvas :=
  { c with contents := c.contents ++
      [CanvasOp.fillText t x y c.fillStyle c.font c.textAlign c.textBaseline] }

/-- Assignment to the canvas width property: updates the property and
the reflected attribute, and resets the drawing surface. -/
def Canvas.setWidth (c : Canvas) (w : ℚ) : Canvas :=
  { c with width := w, widthAttr := w, contents := [] }

/-- Assignment to the canvas height property: updates the property and
resets the drawing surface. -/
def Canvas.setHeight (c : Canvas) (h : ℚ) : Canvas :=
  { c with height := h, contents := [] }

/-- The per-instance mutable state captured by the initializer's
closure: the canvas, the current text, the text input's live value, the
settings and the base image. -/
structure InstanceState where
  canvas : Canvas
  currentText : String
  textInputValue : String
  settings : CustomizerSettings
  baseImage : ImageData
  deriving DecidableEq, Repr

/-- redrawCanvas from the source: return unchanged unless the image has
finished loading with a nonzero natural width; otherwise clear the
canvas, draw the image scaled to the canvas, then draw the current text
with falsy-defaulted colour, font and position percentages. -/
def redrawCanvas (s : InstanceState) : InstanceState :=
  if s.baseImage.complete = false ∨ s.baseImage.naturalWidth = 0 then s
  else
    let c1 := s.canvas.clearRect 0 0 s.canvas.width s.canvas.height
    let c2 := c1.drawImage s.baseImage 0 0 c1.width c1.height
    let c3 := c2.setFillStyle (jsOrStr s.settings.text_color "#000000")
    let c4 := c3.setFont
      (toString (jsOrNum s.settings.font_size 30) ++ "px "
        ++ jsOrStr s.settings.font_family "Arial")
    let c5 := c4.setTextAlign "center"
    let c6 := c5.setTextBaseline "middle"
    let textX := c6.width * jsOrNum s.settings.text_pos_x_percent 50 / 100
    let textY := c6.height * jsOrNum s.settings.text_pos_y_percent 50 / 100
    let c7 := c6.fillText s.currentText textX textY
    { s with canvas := c7 }

/-- handleTextInput from the source: replace the current text with the
input event's value and redraw. -/
def handleTextInput (v : String) (s : InstanceState) : InstanceState :=
  redrawCanvas { s with currentText := v }

/-- The baseImage.onload handler from the source: recompute the canvas
dimensions from the image's natural size and the canvas's prior width
property, synchronize the input's value with the default text when
empty, and redraw. -/
def onloadHandler (s : InstanceState) : InstanceState :=
  let imageAspect : ℚ :=
    (s.baseImage.naturalHeight : ℚ) / (s.baseImage.naturalWidth : ℚ)
  let w0 : ℚ := s.canvas.width
  let canvasWidth : ℚ :=
    if s.settings.image_max_width = some 0 ∨ (s.baseImage.naturalWidth : ℚ) < w0
    then (s.baseImage.naturalWidth : ℚ) else w0
  let c1 := s.canvas.setWidth canvasWidth
  let c2 := c1.setHeight (canvasWidth * imageAspect)
  let s1 := { s with canvas := c2 }
  let s2 :=
    if s1.textInputValue = "" ∧ s1.settings.default_text ≠ "" then
      { s1 with textInputValue := s1.settings.default_text,
                currentText := s1.settings.default_text }
    else
      { s1 with currentText := s1.textInputValue }
  redrawCanvas s2

/-- The synchronous already-complete branch at the end of
initializeProductCustomizer, which replays the onload logic but reads
the initial width from the canvas width attribute (parseFloat of
getAttribute of width) instead of the width property. -/
def syncCompleteBranch (s : InstanceState) : InstanceState :=
  let imageAspect : ℚ :=
    (s.baseImage.naturalHeight : ℚ) / (s.baseImage.naturalWidth : ℚ)
  let w0 : ℚ := s.canvas.widthAttr
  let canvasWidth : ℚ :=
    if s.settings.image_max_width = some 0 ∨ (s.baseImage.naturalWidth : ℚ) < w0
    then (s.baseImage.naturalWidth : ℚ) else w0
  let c1 := s.canvas.setWidth canvasWidth
  let c2 := c1.setHeight (canvasWidth * imageAspect)
  let s1 := { s with canvas := c2 }
  let s2 :=
    if s1.textInputValue = "" ∧ s1.settings.default_text ≠ "" then
      { s1 with textInputValue := s1.settings.default_text,
                currentText := s1.settings.default_text }
    else
      { s1 with currentText := s1.textInputValue }
  redrawCanvas s2

/-- The baseImage.onerror handler from the source: fill the canvas with
gray and draw the load-failure message centred at half the canvas
dimensions. -/
def onerrorHandler (c : Canvas) : Canvas :=
  let c1 := c.setFillStyle "#cccccc"
  let c2 := c1.fillRect 0 0 c1.width c1.height
  let c3 := c2.setFillStyle "#000000"
  let c4 := c3.setTextAlign "center"
  c4.fillText "图片加载失败" (c4.width / 2) (c4.height / 2)

/-- Result of running initializeProductCustomizer once the DOM lookups
and the 2D-context acquisition have succeeded: the closure state, plus
whether an image load was started (src assigned), whether the input
listener was attached, and the console.error messages emitted. -/
structure InitResult where
  state : InstanceState
  loadStarted : Bool
  listenerAttached : Bool
  log : List String
  deriving DecidableEq, Repr

/-- initializeProductCustomizer from the source, after the element and
context lookups succeed.  `textInputValue` is the input's value at bind
time and `imageAfterSrc` the image's observable state right after the
src assignment (complete with positive natural width exactly when the
image came synchronously from cache).  With a nonempty URL the load is
started, the input listener attached, and the already-complete branch
replayed when the image is cached; with an empty URL an error is
logged, a placeholder is painted, and the function returns before
attaching the listener. -/
def initializeProductCustomizer (blockId : String)
    (config : CustomizerInstanceConfig) (canvas : Canvas)
    (textInputValue : String) (imageAfterSrc : ImageData) : InitResult :=
  let settings := config.settings
  let currentText := jsOrStr textInputValue settings.default_text
  if config.imageUrl ≠ "" then
    let s0 : InstanceState :=
      { canvas := canvas, currentText := currentText,
        textInputValue := textInputValue, settings := settings,
        baseImage := imageAfterSrc }
    let s1 :=
      if imageAfterSrc.complete = true ∧ 0 < imageAfterSrc.naturalWidth
      then syncCompleteBranch s0 else s0
    { state := s1, loadStarted := true, listenerAttached := true, log := [] }
  else
    let c1 := canvas.setFillStyle "#cccccc"
    let c2 := c1.fillRect 0 0 c1.width c1.height
    let c3 := c2.setFillStyle "#000000"
    let c4 := c3.setTextAlign "center"
    let c5 := c4.fillText "未找到图片URL" (c4.width / 2) (c4.height / 2)
    { state :=
        { canvas := c5, currentText := currentText,
          textInputValue := textInputValue, settings := settings,
          baseImage := freshImage },
      loadStarted := false, listenerAttached := false,
      log := ["[Customizer " ++ blockId ++ "]：图片 URL (imageUrl) 未提供。"] }

/-- Deliver one input event carrying value v to an initialized
instance: the handler runs only if the listener was attached. -/
def stepInput (r : InitResult) (v : String) : InitResult :=
  if r.listenerAttached then { r with state := handleTextInput v r.state }
  else r

/-- Deliver a sequence of input events to an initialized instance. -/
def runInputs (r : InitResult) (vs : List String) : InitResult :=
  vs.foldl stepInput r

/-- Deliver a sequence of input events directly to a closure state on
which the listener is attached. -/
def processInputs (s : InstanceState) (vs : List String) : InstanceState :=
  vs.foldl (fun t v => handleTextInput v t) s

/-- Texts painted by the fillText operations in a list, in order. -/
def drawnTexts (ops : List CanvasOp) : List String :=
  ops.foldr
    (fun op acc =>
      match op with
      | CanvasOp.fillText t _ _ _ _ _ _ => t :: acc
      | _ => acc) []

/-- Modelled from the spec: the Liquid template that renders the canvas
element is not part of the sources; per the source comment the canvas
width property read by the onload handler is the width attribute set by
Liquid from image_max_width.  The contract is that the canvas's initial
width equals the configured image_max_width. -/
def liquidWidthContract (s : InstanceState) : Prop :=
  s.settings.image_max_width = some s.canvas.width

/-! Example states used by witnesses and counterexamples. -/

/-- A successfully loaded 200 by 100 image. -/
def exImage : ImageData :=
  { complete := true, naturalWidth := 200, naturalHeight := 100 }

/-- A successfully loaded 100 by 100 image. -/
def exImageSquare : ImageData :=
  { complete := true, naturalWidth := 100, naturalHeight := 100 }

/-- An image whose load failed: complete with natural width zero. -/
def exImageFailed : ImageData :=
  { complete := true, naturalWidth := 0, naturalHeight := 0 }

/-- An 80 by 40 canvas in its initial context state with no paint
operations performed. -/
def exCanvas : Canvas :=
  { width := 80, height := 40, widthAttr := 80, fillStyle := "#000000",
    font := "10px sans-serif", textAlign := "start",
    textBaseline := "alphabetic", contents := [] }

/-- A fresh 100 by 100 canvas. -/
def exCanvasSquare : Canvas :=
  { width := 100, height := 100, widthAttr := 100, fillStyle := "#000000",
    font := "10px sans-serif", textAlign := "start",
    textBaseline := "alphabetic", contents := [] }

/-- Settings with a maximum width of 80 and text at 25 and 75 percent. -/
def exSettings : CustomizerSettings :=
  { default_text := "Hello", text_color := "", font_size := none,
    font_family := "", text_pos_x_percent := some 25,
    text_pos_y_percent := some 75, image_max_width := some 80 }

/-- Settings whose position percentages are present and equal to 0. -/
def exSettingsZero : CustomizerSettings :=
  { default_text := "T", text_color := "#ff0000", font_size := some 20,
    font_family := "Arial", text_pos_x_percent := some 0,
    text_pos_y_percent := some 0, image_max_width := some 200 }

/-- A bound instance: 80 by 40 canvas, loaded 200 by 100 image. -/
def exState : InstanceState :=
  { canvas := exCanvas, currentText := "Hello", textInputValue := "Hello",
    settings := exSettings, baseImage := exImage }

/-- A bound instance whose settings place the text at 0 percent. -/
def exStateZero : InstanceState :=
  { canvas := exCanvasSquare, currentText := "T", textInputValue := "T",
    settings := exSettingsZero, baseImage := exImageSquare }

/-- A bound instance whose image failed to load. -/
def exStateFailed : InstanceState :=
  { canvas := exCanvasSquare, currentText := "T", textInputValue := "T",
    settings := exSettingsZero, baseImage := exImageFailed }

/-- A configuration with an empty image URL. -/
def exConfigNoUrl : CustomizerInstanceConfig :=
  { settings := exSettings, imageUrl := "", productId := "p1" }

/-- Settings whose maximum image width is the special value zero. -/
def exSettingsZeroMax : CustomizerSettings :=
  { default_text := "Hello", text_color := "", font_size := none,
    font_family := "", text_pos_x_percent := some 25,
    text_pos_y_percent := some 75, image_max_width := some 0 }

/-- A canvas whose prior width (999) has nothing to do with the image. -/
def exCanvasTall : Canvas :=
  { width := 999, height := 5, widthAttr := 999, fillStyle := "#000000",
    font := "10px sans-serif", textAlign := "start",
    textBaseline := "alphabetic", contents := [] }

/-- A bound instance with zero maximum width and an odd prior canvas
width. -/
def exStateZeroMax : InstanceState :=
  { canvas := exCanvasTall, currentText := "Hello",
    textInputValue := "Hello", settings := exSettingsZeroMax,
    baseImage := exImage }

/-! Helper lemmas about the embedded operations. -/

/-- Redrawing never changes the canvas width property. -/
@[simp] theorem redrawCanvas_width (s : InstanceState) :
    (redrawCanvas s).canvas.width = s.canvas.width := by
  unfold redrawCanvas
  split
  · rfl
  · simp [Canvas.clearRect, Canvas.drawImage, Canvas.setFillStyle,
      Canvas.setFont, Canvas.setTextAlign, Canvas.setTextBaseline,
      Canvas.fillText]

/-- Redrawing never changes the canvas height property. -/
@[simp] theorem redrawCanvas_height (s : InstanceState) :
    (redrawCanvas s).canvas.height = s.canvas.height := by
  unfold redrawCanvas
  split
  · rfl
  · simp [Canvas.clearRect, Canvas.drawImage, Canvas.setFillStyle,
      Canvas.setFont, Canvas.setTextAlign, Canvas.setTextBaseline,
      Canvas.fillText]

/-- When the image is not complete or has natural width zero, redrawing
is the identity. -/
theorem redrawCanvas_not_loaded (s : InstanceState)
    (h : s.baseImage.complete = false ∨ s.baseImage.naturalWidth = 0) :
    redrawCanvas s = s := by
  unfold redrawCanvas
  rw [if_pos h]

/-- When the image is complete with nonzero natural width, redrawing
replaces the canvas contents with the image draw followed by the text
draw, and sets the context state accordingly. -/
theorem redrawCanvas_loaded (s : InstanceState)
    (hc : s.baseImage.complete = true) (hw : s.baseImage.naturalWidth ≠ 0) :
    redrawCanvas s =
      { s with canvas :=
        { width := s.canvas.width, height := s.canvas.height,
          widthAttr := s.canvas.widthAttr,
          fillStyle := jsOrStr s.settings.text_color "#000000",
          font := toString (jsOrNum s.settings.font_size 30) ++ "px "
            ++ jsOrStr s.settings.font_family "Arial",
          textAlign := "center", textBaseline := "middle",
          contents :=
            [CanvasOp.drawImage s.baseImage 0 0 s.canvas.width s.canvas.height,
             CanvasOp.fillText s.currentText
               (s.canvas.width * jsOrNum s.settings.text_pos_x_percent 50 / 100)
               (s.canvas.height * jsOrNum s.settings.text_pos_y_percent 50 / 100)
               (jsOrStr s.settings.text_color "#000000")
               (toString (jsOrNum s.settings.font_size 30) ++ "px "
                 ++ jsOrStr s.settings.font_family "Arial")
               "center" "middle"] } } := by
  unfold redrawCanvas
  rw [if_neg (by simp [hc, hw])]
  simp [Canvas.clearRect, Canvas.drawImage, Canvas.setFillStyle,
    Canvas.setFont, Canvas.setTextAlign, Canvas.setTextBaseline,
    Canvas.fillText]

/-- When the image is not complete or has natural width zero, an input
event only replaces the current text; the canvas is untouched. -/
theorem handleTextInput_not_loaded (v : String) (s : InstanceState)
    (h : s.baseImage.complete = false ∨ s.baseImage.naturalWidth = 0) :
    handleTextInput v s = { s with currentText := v } := by
  unfold handleTextInput
  exact redrawCanvas_not_loaded _ h

/-- As long as the image is not complete or has natural width zero, no
sequence of input events changes the canvas. -/
theorem processInputs_canvas_invariant :
    ∀ (vs : List String) (s : InstanceState),
      s.baseImage.complete = false ∨ s.baseImage.naturalWidth = 0 →
      (processInputs s vs).canvas = s.canvas := by
  intro vs
  induction vs with
  | nil => intro s _; rfl
  | cons v vs ih =>
    intro s h
    have e : processInputs s (v :: vs)
        = processInputs (handleTextInput v s) vs := rfl
    rw [e, handleTextInput_not_loaded v s h]
    exact ih { s with currentText := v } h

/-- When the input listener was never attached, delivering input events
leaves the initialization result unchanged. -/
theorem runInputs_not_attached (r : InitResult)
    (h : r.listenerAttached = false) :
    ∀ vs : List String, runInputs r vs = r := by
  intro vs
  induction vs with
  | nil => rfl
  | cons v vs ih =>
    have e : runInputs r (v :: vs) = runInputs (stepInput r v) vs := rfl
    have e2 : stepInput r v = r := by
      unfold stepInput
      rw [if_neg]
      simp [h]
    rw [e, e2]
    exact ih

/-- Dimensions computed by the onload handler when neither the zero
maximum-width special case nor the natural-width clamp applies. -/
theorem onloadHandler_dims_keep (s : InstanceState)
    (h : ¬(s.settings.image_max_width = some 0
        ∨ (s.baseImage.naturalWidth : ℚ) < s.canvas.width)) :
    (onloadHandler s).canvas.width = s.canvas.width ∧
    (onloadHandler s).canvas.height = s.canvas.width *
      ((s.baseImage.naturalHeight : ℚ) / (s.baseImage.naturalWidth : ℚ)) := by
  simp only [onloadHandler, redrawCanvas_width, redrawCanvas_height]
  rw [if_neg h]
  constructor
  · split
    · simp [Canvas.setWidth, Canvas.setHeight]
    · simp [Canvas.setWidth, Canvas.setHeight]
  · split
    · simp [Canvas.setWidth, Canvas.setHeight]
    · simp [Canvas.setWidth, Canvas.setHeight]

/-- Width computed by the onload handler in the zero maximum-width
special case: the image's natural width, whatever the prior width. -/
theorem onloadHandler_width_zero_max (s : InstanceState)
    (h : s.settings.image_max_width = some 0) :
    (onloadHandler s).canvas.width = (s.baseImage.naturalWidth : ℚ) := by
  simp only [onloadHandler, redrawCanvas_width]
  rw [if_pos (Or.inl h)]
  split
  · simp [Canvas.setWidth, Canvas.setHeight]
  · simp [Canvas.setWidth, Canvas.setHeight]

/-! Claim theorems. -/

/-- C1: for every loaded image and settings whose image_max_width is
positive and exceeded by the image's natural width, after the onload
handler runs (with the canvas's Liquid-set initial width equal to
image_max_width, see liquidWidthContract) the canvas width equals
image_max_width and the canvas height equals that width times
naturalHeight over naturalWidth. -/
theorem C1_onload_clamps_to_max_width (s : InstanceState) (m : ℚ)
    (hm : s.settings.image_max_width = some m) (hpos : 0 < m)
    (hliquid : liquidWidthContract s)
    (hexceed : m < (s.baseImage.naturalWidth : ℚ)) :
    (onloadHandler s).canvas.width = m ∧
    (onloadHandler s).canvas.height =
      m * ((s.baseImage.naturalHeight : ℚ) / (s.baseImage.naturalWidth : ℚ)) := by
  have hw : s.canvas.width = m :=
    (Option.some_inj.mp (hm.symm.trans hliquid)).symm
  have hcond : ¬(s.settings.image_max_width = some 0
      ∨ (s.baseImage.naturalWidth : ℚ) < s.canvas.width) := by
    push_neg
    constructor
    · rw [hm]
      simpa using hpos.ne'
    · rw [hw]
      exact le_of_lt hexceed
  obtain ⟨h1, h2⟩ := onloadHandler_dims_keep s hcond
  rw [hw] at h1 h2
  exact ⟨h1, h2⟩

/-- Witness for C1 at a concrete state: an 80-wide canvas with an 80
maximum width and a 200 by 100 image. -/
theorem C1_onload_clamps_to_max_width_witness :
    (onloadHandler exState).canvas.width = 80 ∧
    (onloadHandler exState).canvas.height =
      80 * ((exState.baseImage.naturalHeight : ℚ)
        / (exState.baseImage.naturalWidth : ℚ)) :=
  C1_onload_clamps_to_max_width exState 80 rfl (by norm_num) rfl
    (by norm_num [exState, exImage])

/-- C3: with image_max_width equal to zero the onload handler sets the
canvas width to the image's natural width, whatever the prior width. -/
theorem C3_zero_max_width_uses_natural (s : InstanceState)
    (h : s.settings.image_max_width = some 0) :
    (onloadHandler s).canvas.width = (s.baseImage.naturalWidth : ℚ) :=
  onloadHandler_width_zero_max s h

/-- Witness for C3: a 999-wide canvas, zero maximum width, image of
natural width 200. -/
theorem C3_zero_max_width_uses_natural_witness :
    (onloadHandler exStateZeroMax).canvas.width = 200 := by
  have h := C3_zero_max_width_uses_natural exStateZeroMax rfl
  simpa [exStateZeroMax, exImage] using h

/-- C4: the renderer is idempotent: redrawing twice with unchanged state
produces the same result as redrawing once. -/
theorem C4_redraw_idempotent (s : InstanceState) :
    redrawCanvas (redrawCanvas s) = redrawCanvas s := by
  by_cases h : s.baseImage.complete = false ∨ s.baseImage.naturalWidth = 0
  · rw [redrawCanvas_not_loaded s h, redrawCanvas_not_loaded s h]
  · push_neg at h
    obtain ⟨h1, h2⟩ := h
    have hc : s.baseImage.complete = true := by simpa using h1
    have e := redrawCanvas_loaded s hc h2
    have hc2 : (redrawCanvas s).baseImage.complete = true := by
      rw [e]
      exact hc
    have h22 : (redrawCanvas s).baseImage.naturalWidth ≠ 0 := by
      rw [e]
      exact h2
    rw [redrawCanvas_loaded (redrawCanvas s) hc2 h22, e]

/-- C2 counterexample: with position percentages present and equal to 0
(a value inside the claimed range 0 to 100) on a loaded 100 by 100
instance, the renderer draws the text at (50, 50), not at the claimed
anchor (100 times 0 over 100, 100 times 0 over 100) = (0, 0): the
falsy-default also fires on 0, not only when the position is absent. -/
theorem C2_zero_percent_counterexample :
    (redrawCanvas exStateZero).canvas.contents =
      [CanvasOp.drawImage exImageSquare 0 0 100 100,
       CanvasOp.fillText "T" 50 50 "#ff0000" "20px Arial"
         "center" "middle"] ∧
    ¬(100 : ℚ) * 0 / 100 = 50 := by
  constructor
  · rw [redrawCanvas_loaded exStateZero rfl (by decide)]
    simp [exStateZero, exImageSquare, exCanvasSquare, exSettingsZero,
      jsOrNum, jsOrStr]
    rfl
  · norm_num

/-- C2 (amended): for every render with a loaded image, the text anchor
point is (canvas width times text_pos_x_percent over 100, canvas height
times text_pos_y_percent over 100) for any nonzero position percentages;
a percentage that is absent or equal to 0 is replaced by 50.  The
current text string is drawn at that point. -/
theorem C2_anchor_nonzero_percent (s : InstanceState) (px py : ℚ)
    (hc : s.baseImage.complete = true) (hw : s.baseImage.naturalWidth ≠ 0)
    (hx : s.settings.text_pos_x_percent = some px) (hpx : px ≠ 0)
    (hy : s.settings.text_pos_y_percent = some py) (hpy : py ≠ 0) :
    (redrawCanvas s).canvas.contents =
      [CanvasOp.drawImage s.baseImage 0 0 s.canvas.width s.canvas.height,
       CanvasOp.fillText s.currentText
         (s.canvas.width * px / 100) (s.canvas.height * py / 100)
         (jsOrStr s.settings.text_color "#000000")
         (toString (jsOrNum s.settings.font_size 30) ++ "px "
           ++ jsOrStr s.settings.font_family "Arial")
         "center" "middle"] := by
  rw [redrawCanvas_loaded s hc hw]
  simp [jsOrNum, hx, hpx, hy, hpy]

/-- Witness for the amended C2 at a concrete loaded state with
percentages 25 and 75. -/
theorem C2_anchor_nonzero_percent_witness :
    (redrawCanvas exState).canvas.contents =
      [CanvasOp.drawImage exState.baseImage 0 0
         exState.canvas.width exState.canvas.height,
       CanvasOp.fillText exState.currentText
         (exState.canvas.width * 25 / 100) (exState.canvas.height * 75 / 100)
         (jsOrStr exState.settings.text_color "#000000")
         (toString (jsOrNum exState.settings.font_size 30) ++ "px "
           ++ jsOrStr exState.settings.font_family "Arial")
         "center" "middle"] :=
  C2_anchor_nonzero_percent exState 25 75 rfl (by decide) rfl (by norm_num)
    rfl (by norm_num)

/-- C5: an input event carrying value v sets the current text state to v
and immediately redraws, so the draw performed (when the image is loaded)
paints exactly v. -/
theorem C5_input_sets_text (v : String) (s : InstanceState) :
    (handleTextInput v s).currentText = v ∧
    (s.baseImage.complete = true → s.baseImage.naturalWidth ≠ 0 →
      drawnTexts (handleTextInput v s).canvas.contents = [v]) := by
  constructor
  · unfold handleTextInput redrawCanvas
    split
    · rfl
    · simp [Canvas.clearRect, Canvas.drawImage, Canvas.setFillStyle,
        Canvas.setFont, Canvas.setTextAlign, Canvas.setTextBaseline,
        Canvas.fillText]
  · intro hc hw
    have hc2 : ({ s with currentText := v } : InstanceState).baseImage.complete
        = true := hc
    have hw2 : ({ s with currentText := v } : InstanceState).baseImage.naturalWidth
        ≠ 0 := hw
    unfold handleTextInput
    rw [redrawCanvas_loaded _ hc2 hw2]
    simp [drawnTexts]

/-- Witness for C5 at a concrete loaded state. -/
theorem C5_input_sets_text_witness :
    (handleTextInput "Yo" exState).currentText = "Yo" ∧
    drawnTexts (handleTextInput "Yo" exState).canvas.contents = ["Yo"] :=
  ⟨(C5_input_sets_text "Yo" exState).1,
   (C5_input_sets_text "Yo" exState).2 rfl (by decide)⟩

/-- C6: when the image has not finished loading successfully (not
complete, or natural width zero), redrawing is the identity, and no
sequence of subsequent input events ever changes the canvas: an instance
in the error state never again renders a background image. -/
theorem C6_error_state_never_renders (s : InstanceState)
    (h : s.baseImage.complete = false ∨ s.baseImage.naturalWidth = 0) :
    redrawCanvas s = s ∧
    ∀ vs : List String, (processInputs s vs).canvas = s.canvas :=
  ⟨redrawCanvas_not_loaded s h,
   fun vs => processInputs_canvas_invariant vs s h⟩

/-- Witness for C6 at a concrete failed-load state. -/
theorem C6_error_state_never_renders_witness :
    redrawCanvas exStateFailed = exStateFailed ∧
    (processInputs exStateFailed ["a", "b"]).canvas = exStateFailed.canvas :=
  ⟨(C6_error_state_never_renders exStateFailed (Or.inr rfl)).1,
   (C6_error_state_never_renders exStateFailed (Or.inr rfl)).2 ["a", "b"]⟩

/-- C7: the onerror handler fills the whole canvas (a rectangle from the
origin with the canvas's full dimensions) with color #cccccc and then
draws the text 图片加载失败 with centre alignment at the point
(width / 2, height / 2). -/
theorem C7_onerror_placeholder (c : Canvas) :
    (onerrorHandler c).contents =
      c.contents ++
        [CanvasOp.fillRect 0 0 c.width c.height "#cccccc",
         CanvasOp.fillText "图片加载失败" (c.width / 2) (c.height / 2)
           "#000000" c.font "center" c.textBaseline] := by
  simp [onerrorHandler, Canvas.setFillStyle, Canvas.fillRect,
    Canvas.setTextAlign, Canvas.fillText]

/-- C8: with an empty image URL, initialization logs an error, paints
the placeholder text 未找到图片URL onto the canvas, reports no image
load started, and performs no background-image draw. -/
theorem C8_missing_url_placeholder (blockId : String)
    (config : CustomizerInstanceConfig) (canvas : Canvas)
    (tv : String) (img : ImageData)
    (hurl : config.imageUrl = "") (hfresh : canvas.contents = []) :
    (initializeProductCustomizer blockId config canvas tv img).loadStarted
      = false ∧
    (initializeProductCustomizer blockId config canvas tv img).log =
      ["[Customizer " ++ blockId ++ "]：图片 URL (imageUrl) 未提供。"] ∧
    (initializeProductCustomizer blockId config canvas tv img).state.canvas.contents =
      [CanvasOp.fillRect 0 0 canvas.width canvas.height "#cccccc",
       CanvasOp.fillText "未找到图片URL" (canvas.width / 2) (canvas.height / 2)
         "#000000" canvas.font "center" canvas.textBaseline] ∧
    ∀ op ∈ (initializeProductCustomizer blockId config canvas tv img).state.canvas.contents,
      op.isDrawImage = false := by
  simp [initializeProductCustomizer, hurl, hfresh, Canvas.setFillStyle,
    Canvas.fillRect, Canvas.setTextAlign, Canvas.fillText,
    CanvasOp.isDrawImage]

/-- Witness for C8 at a concrete configuration with an empty URL. -/
theorem C8_missing_url_placeholder_witness :
    (initializeProductCustomizer "b1" exConfigNoUrl exCanvas "hi" exImage).loadStarted
      = false ∧
    (initializeProductCustomizer "b1" exConfigNoUrl exCanvas "hi" exImage).log =
      ["[Customizer " ++ "b1" ++ "]：图片 URL (imageUrl) 未提供。"] ∧
    (initializeProductCustomizer "b1" exConfigNoUrl exCanvas "hi" exImage).state.canvas.contents =
      [CanvasOp.fillRect 0 0 exCanvas.width exCanvas.height "#cccccc",
       CanvasOp.fillText "未找到图片URL" (exCanvas.width / 2) (exCanvas.height / 2)
         "#000000" exCanvas.font "center" exCanvas.textBaseline] ∧
    ∀ op ∈ (initializeProductCustomizer "b1" exConfigNoUrl exCanvas "hi" exImage).state.canvas.contents,
      op.isDrawImage = false :=
  C8_missing_url_placeholder "b1" exConfigNoUrl exCanvas "hi" exImage rfl rfl

/-- C9: whenever the canvas width attribute reflects the width property
(as it does at bind time, before any script mutation), the synchronous
already-complete branch of the initializer computes exactly the same
state as the asynchronous onload handler: the two branches are
equivalent. -/
theorem C9_sync_branch_equiv_onload (s : InstanceState)
    (h : s.canvas.widthAttr = s.canvas.width) :
    syncCompleteBranch s = onloadHandler s := by
  simp only [syncCompleteBranch, onloadHandler, h]

/-- Witness for C9 at a concrete state whose attribute and property
agree. -/
theorem C9_sync_branch_equiv_onload_witness :
    syncCompleteBranch exState = onloadHandler exState :=
  C9_sync_branch_equiv_onload exState rfl

/-- C10: with an empty image URL, initialization returns before the
input listener is attached, so delivering any sequence of input events
afterwards changes nothing: the placeholder persists. -/
theorem C10_missing_url_inert (blockId : String)
    (config : CustomizerInstanceConfig) (canvas : Canvas)
    (tv : String) (img : ImageData) (hurl : config.imageUrl = "")
    (vs : List String) :
    runInputs (initializeProductCustomizer blockId config canvas tv img) vs =
      initializeProductCustomizer blockId config canvas tv img := by
  apply runInputs_not_attached
  simp [initializeProductCustomizer, hurl]

/-- Witness for C10 at a concrete configuration and two input events. -/
theorem C10_missing_url_inert_witness :
    runInputs (initializeProductCustomizer "b1" exConfigNoUrl exCanvas "hi" exImage)
        ["x", "y"] =
      initializeProductCustomizer "b1" exConfigNoUrl exCanvas "hi" exImage :=
  C10_missing_url_inert "b1" exConfigNoUrl exCanvas "hi" exImage rfl ["x", "y"]
